import Mathlib

/-!
Verification development for the `file_inspector` watcher
(`src/file_inspector/main.py`).

The program watches a directory tree, keeps a shadow mirror of it in a
temporary directory, prints a notification per filesystem event, prints a
diff for modified files and reports a folder size after every event.

Embedding conventions:
* Paths are lists of name components.  The live tree and the mirror tree are
  each a finite association list from paths to entries; the monitored root
  and the temporary root are represented by the empty path inside their
  respective trees (concrete states carry an explicit root directory entry).
* `get_temp_path` (which in Python substitutes the common root prefix of the
  monitored folder by the temporary directory) becomes dropping the monitored
  root's components, the mirror being keyed by root-relative paths.
* Fallible filesystem calls return `Except IOErr`, with the same error
  distinctions Python raises (`FileNotFoundError`, `IsADirectoryError`,
  `NotADirectoryError`, `FileExistsError`).
* Terminal output (`click.secho` / `click.echo`) becomes a list of messages,
  each carrying its text and its color.
-/

/-- A path, as the list of its name components (relative to the relevant
root; the root itself is `[]`). -/
abbrev FsPath := List String

/-- A filesystem entry: a text file with its content, or a directory with the
size its own inode reports through `stat` (a directory's `st_size` is the
size of the directory entry itself, not of its contents). -/
inductive FsEntry where
  | file (content : String)
  | dir (inodeSize : Nat)
deriving DecidableEq, Repr

/-- A filesystem tree: a finite association list from paths to entries. -/
abbrev FS := List (FsPath × FsEntry)

/-- Look up the entry stored at a path. -/
def lookupFS : FS → FsPath → Option FsEntry
  | [], _ => none
  | (q, e) :: rest, p => if q = p then some e else lookupFS rest p

/-- Remove any entry stored at a path (the association list keeps its order
for the other keys). -/
def eraseFS (fs : FS) (p : FsPath) : FS :=
  fs.filter (fun q => q.1 ≠ p)

/-- Store an entry at a path, replacing any previous entry with that key. -/
def insertFS (fs : FS) (p : FsPath) (e : FsEntry) : FS :=
  eraseFS fs p ++ [(p, e)]

/-- Python `path.is_file()`: the path exists and is a regular file. -/
def isFileFS (fs : FS) (p : FsPath) : Bool :=
  match lookupFS fs p with
  | some (.file _) => true
  | _ => false

/-- Python `path.is_dir()`: the path exists and is a directory. -/
def isDirFS (fs : FS) (p : FsPath) : Bool :=
  match lookupFS fs p with
  | some (.dir _) => true
  | _ => false

/-- The parent of a path (Python `path.parent`; the parent of a
single-component path is the root). -/
def parentPath (p : FsPath) : FsPath := p.dropLast

/-- The error taxonomy of the Python filesystem calls used by the program. -/
inductive IOErr where
  | notFound
  | isADirectory
  | notADirectory
  | fileExists
deriving DecidableEq, Repr

/-- Python `path.read_text()`: the content of a regular file, a
`FileNotFoundError` for a missing path, an `IsADirectoryError` for a
directory. -/
def read_text (fs : FS) (p : FsPath) : Except IOErr String :=
  match lookupFS fs p with
  | some (.file c) => .ok c
  | some (.dir _) => .error .isADirectory
  | none => .error .notFound

/-- Python `path.write_text(c)`: overwrites a regular file or creates it when
the parent directory exists; fails like `open(..., "w")` otherwise. -/
def write_text (fs : FS) (p : FsPath) (c : String) : Except IOErr FS :=
  match lookupFS fs p with
  | some (.dir _) => .error .isADirectory
  | some (.file _) => .ok (insertFS fs p (.file c))
  | none =>
    match lookupFS fs (parentPath p) with
    | some (.dir _) => .ok (insertFS fs p (.file c))
    | some (.file _) => .error .notADirectory
    | none => .error .notFound

/-- The `st_size` a directory entry receives when this model creates one
(the concrete value a real filesystem reports is irrelevant to the claims;
`4096` is the common block size). -/
def newDirSize : Nat := 4096

/-- Python `path.mkdir(exist_ok=True)` (no `parents=True`): an existing
directory is accepted, an existing file raises `FileExistsError`, a missing
parent raises `FileNotFoundError`, a file in parent position raises
`NotADirectoryError`. -/
def mkdir_exist_ok (fs : FS) (p : FsPath) : Except IOErr FS :=
  match lookupFS fs p with
  | some (.dir _) => .ok fs
  | some (.file _) => .error .fileExists
  | none =>
    match lookupFS fs (parentPath p) with
    | some (.dir _) => .ok (insertFS fs p (.dir newDirSize))
    | some (.file _) => .error .notADirectory
    | none => .error .notFound

/-- The proper prefixes of a path, shortest first (`[]`, then the first
component, ...). -/
def properPrefixesOf (p : FsPath) : List FsPath :=
  (List.range p.length).map (fun n => p.take n)

/-- One step of `os.makedirs(..., exist_ok=True)`: ensure a single path is a
directory, creating it when absent. -/
def ensureDir (fs : FS) (p : FsPath) : Except IOErr FS :=
  match lookupFS fs p with
  | some (.dir _) => .ok fs
  | some (.file _) => .error .fileExists
  | none => .ok (insertFS fs p (.dir newDirSize))

/-- Python `os.makedirs(p, exist_ok=True)` (as called by `shutil.copytree`
with `dirs_exist_ok=True`): creates the directory and all missing
intermediate parents, accepting those that already exist as directories. -/
def makedirs_exist_ok (fs : FS) (p : FsPath) : Except IOErr FS :=
  (properPrefixesOf p ++ [p]).foldlM ensureDir fs

/-- Rebase a path from under `src` to under `dst`. -/
def rebasePath (src dst p : FsPath) : FsPath :=
  dst ++ p.drop src.length

/-- All entries of a tree that lie at or below a path, in tree order. -/
def subtreeFS (fs : FS) (p : FsPath) : FS :=
  fs.filter (fun q => p.isPrefixOf q.1)

/-- Python `shutil.copytree(src, dst, dirs_exist_ok=True)` from the live tree
into the mirror tree: fails with `FileNotFoundError` when `src` is absent and
with `NotADirectoryError` when it is a regular file; otherwise creates `dst`
(and missing parents) and recursively copies the whole subtree, overwriting
entries that already exist at the destination and keeping destination entries
that have no source counterpart. -/
def copytree (src_fs : FS) (src : FsPath) (dst_fs : FS) (dst : FsPath) :
    Except IOErr FS :=
  match lookupFS src_fs src with
  | none => .error .notFound
  | some (.file _) => .error .notADirectory
  | some (.dir _) => do
    let base ← makedirs_exist_ok dst_fs dst
    .ok ((subtreeFS src_fs src).foldl
      (fun acc q => insertFS acc (rebasePath src dst q.1) q.2) base)

/-- Python `shutil.rmtree(p, ignore_errors=True)`: removes the path and
everything below it; all errors are suppressed, so it never fails. -/
def rmtree_ignore_errors (fs : FS) (p : FsPath) : FS :=
  fs.filter (fun q => ¬ p.isPrefixOf q.1)

/-- Python `path.unlink(missing_ok=True)`: removes a regular file, tolerates
an absent path, raises `IsADirectoryError` on a directory. -/
def unlink_missing_ok (fs : FS) (p : FsPath) : Except IOErr FS :=
  match lookupFS fs p with
  | some (.file _) => .ok (eraseFS fs p)
  | some (.dir _) => .error .isADirectory
  | none => .ok fs

/-- Python `path.stat().st_size`: a file's byte length, a directory's own
inode size. -/
def stat_size (fs : FS) (p : FsPath) : Except IOErr Nat :=
  match lookupFS fs p with
  | some (.file c) => .ok c.utf8ByteSize
  | some (.dir n) => .ok n
  | none => .error .notFound

/-- Modelled from the spec: the live tree's total size, the recursive sum of
the sizes of all files under the watched root (the spec's definition of the
size that should be reported; the source has no function computing this). -/
def tree_size (fs : FS) : Nat :=
  (fs.map (fun q =>
    match q.2 with
    | .file c => c.utf8ByteSize
    | .dir _ => 0)).sum

/-- The three `watchfiles.Change` event kinds. -/
inductive Change where
  | added
  | deleted
  | modified
deriving DecidableEq, Repr

/-- The colors `click.secho` is called with (`plain` for an uncolored
`click.echo`). -/
inductive Color where
  | green
  | yellow
  | blue
  | cyan
  | red
  | plain
deriving DecidableEq, Repr

/-- One terminal message: its text and its color. -/
structure Msg where
  text : String
  color : Color
deriving DecidableEq, Repr

/-- Render a path the way `str(path)` joins its components. -/
def pathStr (p : FsPath) : String :=
  String.intercalate "/" p

/-- Python `name.rfind(c)` over a character list: the index of the last
occurrence, or `none`. -/
def rfindCharIdx (cs : List Char) (c : Char) : Option Nat :=
  match cs.reverse.findIdx? (fun x => x = c) with
  | none => none
  | some k => some (cs.length - 1 - k)

/-- Python `pathlib.PurePath.suffix` of a single name: the part from the last
dot on, empty when the dot is absent, leading or trailing. -/
def py_suffix (name : String) : String :=
  let cs := name.toList
  match rfindCharIdx cs (Char.ofNat 46) with
  | none => ""
  | some i =>
    if 0 < i ∧ i < cs.length - 1 then String.mk (cs.drop i) else ""

/-- The last component of a path (Python `path.name`; empty for the root). -/
def nameOf (p : FsPath) : String := p.getLastD ""

/-- Source `print_event_message(change, path)`: one notification per event.
`added`/`modified` query the live tree (`path.is_file()`); `deleted` falls
back to the name-suffix heuristic because the entry no longer exists. -/
def print_event_message (live : FS) (change : Change) (path : FsPath) :
    List Msg :=
  match change with
  | .added =>
    if isFileFS live path then
      [⟨"File " ++ pathStr path ++ " added", Color.green⟩]
    else
      [⟨"Folder " ++ pathStr path ++ " added", Color.green⟩]
  | .deleted =>
    if py_suffix (nameOf path) ≠ "" then
      [⟨"File " ++ pathStr path ++ " deleted", Color.yellow⟩]
    else
      [⟨"Folder " ++ pathStr path ++ " deleted", Color.yellow⟩]
  | .modified =>
    if isFileFS live path then
      [⟨"File " ++ pathStr path ++ " modified", Color.blue⟩]
    else
      []

/-- Source `get_temp_path(file_path, monitored_folder, temp_dir)`: strips the
common root prefix and re-roots the path in the temporary directory.  With
component paths and a mirror keyed by root-relative paths this is dropping
the monitored root's components. -/
def get_temp_path (file_path monitored_folder : FsPath) : FsPath :=
  file_path.drop monitored_folder.length

/-! ### Model of the external `diff_match_patch` library

`print_file_differences` calls `dmp.patch_make(previous, current)` and
stringifies each resulting patch.  The library is an external dependency (it
is not part of this repository), so the functions below model its documented
behavior: the diff of two texts strips their common prefix and suffix and
diffs the remainders; `patch_make` groups the diff into patches with up to
four characters of context; `str(patch)` prints a unified-diff-style hunk
whose body lines are URI-encoded.  The general remainder-diff case (the
library's `diff_bisect`) is approximated by a deletion followed by an
insertion; every input exercised by a claim below resolves in the exact
branches (equal texts, empty remainder after prefix/suffix stripping). -/

/-- A diff operation of the library: delete, insert or keep. -/
inductive DOp where
  | del
  | ins
  | eq
deriving DecidableEq, Repr

/-- One diff chunk: an operation and its text. -/
abbrev Diff := DOp × String

/-- Length of the common prefix of two character lists
(library `diff_commonPrefix`). -/
def commonLen : List Char → List Char → Nat
  | a :: as, b :: bs => if a = b then commonLen as bs + 1 else 0
  | _, _ => 0

/-- Library `diff_compute` on texts with no common prefix or suffix: exact
for an empty side; the general `diff_bisect` case is approximated by a
deletion plus an insertion (no claim exercises it). -/
def diff_compute (t1 t2 : List Char) : List (DOp × List Char) :=
  if t1 = [] then [(.ins, t2)]
  else if t2 = [] then [(.del, t1)]
  else [(.del, t1), (.ins, t2)]

/-- Library `diff_main`: equal texts yield a single keep chunk (or nothing
for empty texts); otherwise the common prefix and suffix are split off and
the remainders are diffed. -/
def diff_main (t1 t2 : String) : List Diff :=
  if t1 = t2 then (if t1 = "" then [] else [(.eq, t1)])
  else
    let c1 := t1.toList
    let c2 := t2.toList
    let pl := commonLen c1 c2
    let r1 := c1.drop pl
    let r2 := c2.drop pl
    let sl := commonLen r1.reverse r2.reverse
    let core := diff_compute (r1.take (r1.length - sl)) (r2.take (r2.length - sl))
    let withPre := if pl ≠ 0 then (DOp.eq, c1.take pl) :: core else core
    let full :=
      if sl ≠ 0 then withPre ++ [(DOp.eq, r1.drop (r1.length - sl))] else withPre
    full.map (fun d => (d.1, String.mk d.2))

/-- A patch object of the library: its diffs and its hunk coordinates. -/
structure PatchObj where
  diffs : List Diff
  start1 : Nat
  start2 : Nat
  length1 : Nat
  length2 : Nat
deriving DecidableEq, Repr

/-- The library's `Patch_Margin` constant. -/
def patchMargin : Nat := 4

/-- The library's `Match_MaxBits` constant. -/
def matchMaxBits : Nat := 32

/-- First index at which a pattern occurs in a text (Python `text.find`,
with `some 0` for an empty pattern). -/
def findSub (text pat : List Char) : Option Nat :=
  (List.range (text.length + 1)).find? (fun i => pat.isPrefixOf (text.drop i))

/-- Last index at which a pattern occurs (Python `text.rfind`). -/
def rfindSub (text pat : List Char) : Option Nat :=
  ((List.range (text.length + 1)).reverse).find? (fun i => pat.isPrefixOf (text.drop i))

/-- Python `text.find(pat) != text.rfind(pat)`: the pattern occurs at two
distinct positions. -/
def occursTwice (text pat : List Char) : Bool :=
  findSub text pat ≠ rfindSub text pat

/-- The context-growing loop of the library's `patch_addContext`: grow the
context padding by `Patch_Margin` until the context pattern is unique in the
text or too long to match.  The padding grows by 4 per step and the loop
stops once `pattern.length + 2 * padding` reaches 32, so 10 steps of fuel
are never exhausted. -/
def addContextLoop (fuel : Nat) (text : List Char) (start2 length1 : Nat)
    (padding : Nat) (pattern : List Char) : Nat :=
  match fuel with
  | 0 => padding
  | fuel + 1 =>
    if occursTwice text pattern ∧ pattern.length + 2 * padding < matchMaxBits then
      let padding2 := padding + patchMargin
      let lo := start2 - padding2
      let pattern2 := (text.drop lo).take (start2 + length1 + padding2 - lo)
      addContextLoop fuel text start2 length1 padding2 pattern2
    else padding

/-- Library `patch_addContext`: surround a patch with enough context from the
pre-patch text to locate it uniquely, plus one margin. -/
def patch_addContext (patch : PatchObj) (text : List Char) : PatchObj :=
  if text = [] then patch
  else
    let pattern0 := (text.drop patch.start2).take patch.length1
    let padding :=
      addContextLoop 10 text patch.start2 patch.length1 0 pattern0 + patchMargin
    let lo := patch.start2 - padding
    let preT := (text.drop lo).take (patch.start2 - lo)
    let sufT := (text.drop (patch.start2 + patch.length1)).take padding
    let d1 := if preT ≠ [] then (DOp.eq, String.mk preT) :: patch.diffs else patch.diffs
    let d2 := if sufT ≠ [] then d1 ++ [(DOp.eq, String.mk sufT)] else d1
    { diffs := d2
      start1 := patch.start1 - preT.length
      start2 := patch.start2 - preT.length
      length1 := patch.length1 + preT.length + sufT.length
      length2 := patch.length2 + preT.length + sufT.length }

/-- The running state of the library's `patch_make` loop. -/
structure PMState where
  patch : PatchObj
  patches : List PatchObj
  charCount1 : Nat
  charCount2 : Nat
  prepatch : List Char
  postpatch : List Char
deriving Repr

/-- One iteration of the `patch_make` loop over the diff chunks (`isLast`
marks the final chunk). -/
def patch_make_step (isLast : Bool) (op : DOp) (txt : String) (st : PMState) :
    PMState :=
  let n := txt.length
  match op with
  | .ins =>
    let p0 := st.patch
    let p1 := if p0.diffs = [] then
        { p0 with start1 := st.charCount1, start2 := st.charCount2 }
      else p0
    let p2 := { p1 with
      diffs := p1.diffs ++ [(DOp.ins, txt)]
      length2 := p1.length2 + n }
    let post := (st.postpatch.take st.charCount2) ++ txt.toList
      ++ (st.postpatch.drop st.charCount2)
    { st with patch := p2, postpatch := post, charCount2 := st.charCount2 + n }
  | .del =>
    let p0 := st.patch
    let p1 := if p0.diffs = [] then
        { p0 with start1 := st.charCount1, start2 := st.charCount2 }
      else p0
    let p2 := { p1 with
      diffs := p1.diffs ++ [(DOp.del, txt)]
      length1 := p1.length1 + n }
    let post := (st.postpatch.take st.charCount2)
      ++ (st.postpatch.drop (st.charCount2 + n))
    { st with patch := p2, postpatch := post, charCount1 := st.charCount1 + n }
  | .eq =>
    let p0 := st.patch
    if p0.diffs ≠ [] ∧ n ≤ 2 * patchMargin ∧ isLast = false then
      let p2 := { p0 with
        diffs := p0.diffs ++ [(DOp.eq, txt)]
        length1 := p0.length1 + n
        length2 := p0.length2 + n }
      { st with
        patch := p2
        charCount1 := st.charCount1 + n
        charCount2 := st.charCount2 + n }
    else if p0.diffs ≠ [] ∧ 2 * patchMargin ≤ n then
      let fp := patch_addContext p0 st.prepatch
      { st with
        patches := st.patches ++ [fp]
        patch := ⟨[], 0, 0, 0, 0⟩
        prepatch := st.postpatch
        charCount1 := st.charCount2 + n
        charCount2 := st.charCount2 + n }
    else
      { st with
        charCount1 := st.charCount1 + n
        charCount2 := st.charCount2 + n }

/-- The `patch_make` loop over all diff chunks. -/
def patch_make_go : List Diff → PMState → PMState
  | [], st => st
  | d :: rest, st => patch_make_go rest (patch_make_step rest.isEmpty d.1 d.2 st)

/-- Library `patch_make(text1, text2)`: diff the texts and group the diff
into context-carrying patches.  (The library's semantic/efficiency cleanup
passes run only on diffs of more than two chunks; no claim produces one.) -/
def patch_make (t1 t2 : String) : List PatchObj :=
  let fin := patch_make_go (diff_main t1 t2) ⟨⟨[], 0, 0, 0, 0⟩, [], 0, 0, t1.toList, t1.toList⟩
  if fin.patch.diffs ≠ [] then
    fin.patches ++ [patch_addContext fin.patch fin.prepatch]
  else fin.patches

/-- Is a byte kept verbatim by Python `urllib.parse.quote` with the
library's safe set?  Kept: ASCII letters and digits, the always-safe
characters (underscore, dot, hyphen, tilde) and the library's safe string of
punctuation including the space (codes listed). -/
def quoteSafeByte (b : Nat) : Bool :=
  (65 ≤ b ∧ b ≤ 90) ∨ (97 ≤ b ∧ b ≤ 122) ∨ (48 ≤ b ∧ b ≤ 57) ∨
    b ∈ [95, 46, 45, 126, 33, 42, 39, 40, 41, 59, 47, 63, 58, 64, 38, 61,
      43, 36, 44, 35, 32]

/-- An uppercase hexadecimal digit. -/
def hexDigit (n : Nat) : Char :=
  Char.ofNat (if n < 10 then 48 + n else 55 + n)

/-- UTF-8 encoding of one character, as byte values. -/
def utf8EncodeCharNat (c : Char) : List Nat :=
  let n := c.toNat
  if n < 128 then [n]
  else if n < 2048 then [192 + n / 64, 128 + n % 64]
  else if n < 65536 then [224 + n / 4096, 128 + (n / 64) % 64, 128 + n % 64]
  else [240 + n / 262144, 128 + (n / 4096) % 64, 128 + (n / 64) % 64,
    128 + n % 64]

/-- Percent-encoding of one byte: kept verbatim when safe, `%XX` otherwise. -/
def quoteByte (b : Nat) : String :=
  if quoteSafeByte b then String.mk [Char.ofNat b]
  else String.mk [Char.ofNat 37, hexDigit (b / 16), hexDigit (b % 16)]

/-- Python `urllib.parse.quote(data, safe)` as the library calls it when
stringifying a patch line. -/
def py_quote (s : String) : String :=
  String.join (((s.toList.map utf8EncodeCharNat).foldr (· ++ ·) []).map quoteByte)

/-- The library's hunk coordinate rendering: `start,0` for an empty range,
`start+1` for a single position, `start+1,length` otherwise. -/
def coordsStr (start len : Nat) : String :=
  if len = 0 then toString start ++ ",0"
  else if len = 1 then toString (start + 1)
  else toString (start + 1) ++ "," ++ toString len

/-- One body line of `str(patch)`: the operation marker, the URI-encoded
text, a newline. -/
def diffLineStr (d : Diff) : String :=
  (match d.1 with
    | DOp.ins => "+"
    | DOp.del => "-"
    | DOp.eq => " ") ++ py_quote d.2 ++ "\n"

/-- Library `str(patch)`: the `@@ -a,b +c,d @@` header line followed by the
marked, URI-encoded body lines. -/
def patch_to_string (p : PatchObj) : String :=
  "@@ -" ++ coordsStr p.start1 p.length1 ++ " +" ++ coordsStr p.start2 p.length2
    ++ " @@\n" ++ String.join (p.diffs.map diffLineStr)

/-- Python `line.startswith(c)` for a single character. -/
def startsWithChar (s : String) (c : Char) : Bool :=
  match s.toList with
  | [] => false
  | x :: _ => x = c

/-- Source `print_file_differences(previous_text, current_text)`: stringifies
each patch produced by `patch_make` and colors it by its first character
(cyan for a position marker, red for a removal marker, green for an addition
marker, plain `click.echo` with an extra newline otherwise). -/
def print_file_differences (previous_text current_text : String) : List Msg :=
  (patch_make previous_text current_text).map fun patch =>
    let line := patch_to_string patch
    if startsWithChar line (Char.ofNat 64) then ⟨line, Color.cyan⟩
    else if startsWithChar line (Char.ofNat 45) then ⟨line, Color.red⟩
    else if startsWithChar line (Char.ofNat 43) then ⟨line, Color.green⟩
    else ⟨line ++ "\n", Color.plain⟩

/-- Source `rsync_and_diff(change, path, monitored_folder, temp_dir)`: keeps
the mirror in sync with one event and returns the diff output printed for a
file modification.  The mirror tree is keyed by root-relative paths, so
`get_temp_path` drops the monitored root's components. -/
def rsync_and_diff (change : Change) (path : FsPath) (monitored_folder : FsPath)
    (live mirror : FS) : Except IOErr (FS × List Msg) :=
  let temp_path := get_temp_path path monitored_folder
  match change with
  | .added =>
    if isFileFS live path then do
      let m1 ← mkdir_exist_ok mirror (parentPath temp_path)
      let content ← read_text live path
      let m2 ← write_text m1 temp_path content
      .ok (m2, [])
    else do
      let m1 ← copytree live path mirror temp_path
      .ok (m1, [])
  | .modified =>
    if isFileFS live path then do
      let current_version ← read_text live path
      let previous_version ← read_text mirror temp_path
      let msgs := print_file_differences previous_version current_version
      let m1 ← write_text mirror temp_path current_version
      .ok (m1, msgs)
    else
      .ok (mirror, [])
  | .deleted =>
    if isDirFS mirror temp_path then
      .ok (rmtree_ignore_errors mirror temp_path, [])
    else do
      let m1 ← unlink_missing_ok mirror temp_path
      .ok (m1, [])

/-- The units table of `get_human_readable_size`. -/
def size_units : List String := ["B", "KB", "MB", "GB", "TB"]

/-- The exponent `min(int(math.log(size, 1024)), len(units) - 1)` of the
source, for positive sizes.  The source computes the logarithm with IEEE
doubles; for every positive size the double computation agrees with the
exact base-1024 floor logarithm clamped to 4, which this ladder computes
(the relative error of `math.log` is far below the distance of any integer
to the nearest power of 1024, and the powers themselves divide exactly). -/
def size_exponent (size : Nat) : Nat :=
  if 1024 ^ 4 ≤ size then 4
  else if 1024 ^ 3 ≤ size then 3
  else if 1024 ^ 2 ≤ size then 2
  else if 1024 ≤ size then 1
  else 0

/-- Round `n / d` to the nearest integer, ties to even (the rounding
`f-string` formatting applies to an exactly represented quotient). -/
def roundHalfEven (n d : Nat) : Nat :=
  let q := n / d
  let r := n % d
  if 2 * r < d then q
  else if d < 2 * r then q + 1
  else if q % 2 = 0 then q
  else q + 1

/-- The scale `2^t` of the smallest power `t` with `n < 2^(53+t)`: the gap
between consecutive IEEE doubles in the binade of `n` (1 for `n` below
`2^53`).  The fuel argument is decremented once per halving, and a number is
never smaller than its bit length, so starting the fuel at `n` itself never
exhausts it. -/
def floatScale : Nat → Nat → Nat
  | 0, _ => 0
  | fuel + 1, m => if m < 2 ^ 53 then 0 else floatScale fuel (m / 2) + 1

/-- The exact value of the IEEE double nearest to the integer `n` (ties to
even): `n` rounded to 53 significant bits.  This is the rounding the source
incurs when `size /= 1024 ** exponent` divides the integer by an exactly
representable power of two: CPython's int/int true division returns the
correctly rounded double of the rational quotient, and rounding commutes
with the exact power-of-two scaling, so the quotient's value is exactly
`floatRound53 size / 1024 ^ e`. -/
def floatRound53 (n : Nat) : Nat :=
  let g := 2 ^ floatScale n n
  roundHalfEven n g * g

/-- Python `f-string` `{size:.2f}` applied to the double quotient
`size / 1024^e`: the quotient's exact value is `floatRound53 size / 1024^e`
(see `floatRound53`), and CPython formats a double by correctly rounding its
exact binary value to two decimals, ties to even.  The model therefore
rounds twice, exactly as the program does — first to 53 significant bits,
then to two decimal places — and coincides with the program for every size
below `2^1064` (beyond which the source's division overflows and raises). -/
def format_two_decimals (size e : Nat) : String :=
  let q := roundHalfEven (100 * floatRound53 size) (1024 ^ e)
  let ip := q / 100
  let fr := q % 100
  let frs := if fr < 10 then "0" ++ toString fr else toString fr
  toString ip ++ "." ++ frs

/-- Python `s.rstrip(c)` for a single character: drop every trailing
occurrence. -/
def rstripChar (c : Char) (s : String) : String :=
  String.mk ((s.toList.reverse.dropWhile (fun x => x = c)).reverse)

/-- The source's trailing cleanup: when the rendering contains a dot, strip
trailing zeros and then a trailing dot. -/
def strip_trailing (s : String) : String :=
  if s.toList.contains (Char.ofNat 46) then
    rstripChar (Char.ofNat 46) (rstripChar (Char.ofNat 48) s)
  else s

/-- Source `get_human_readable_size(size)`: `0` maps to `"0 B"`; otherwise
the size is scaled by the unit whose exponent is the clamped base-1024 floor
logarithm, rendered with two decimals and cleaned of trailing zeros and a
trailing dot.  The double-precision steps of the source are modelled
exactly: the exponent by the ladder of `size_exponent`, and the division
plus `{:.2f}` rendering by the two-stage rounding of `format_two_decimals`
(53 significant bits, then two decimals, both ties to even), which coincides
with the program for every size below `2^1064`, where the source's division
overflows and raises instead of formatting. -/
def get_human_readable_size (size : Nat) : String :=
  if size = 0 then "0 B"
  else
    let exponent := size_exponent size
    let size_str := strip_trailing (format_two_decimals size exponent)
    size_str ++ " " ++ size_units.getD exponent ""

/-- Source `print_folder_size(folder, size)`: the size message printed after
every event (the size style color is the message color). -/
def print_folder_size (folder : String) (size : Nat) : Msg :=
  ⟨"\nTotal size of " ++ folder ++ ": " ++ get_human_readable_size size ++ "\n",
    Color.blue⟩

/-- One iteration of the source `cli` inner loop: print the event message,
synchronize the mirror (collecting the diff output), then print the size the
monitored folder's own `stat().st_size` reports.  Any error a filesystem
call raises escapes: nothing in the source catches it. -/
def process_event (live : FS) (folder : String) (monitored_folder : FsPath)
    (mirror : FS) (change : Change) (path : FsPath) :
    Except IOErr (FS × List Msg) := do
  let msgs1 := print_event_message live change path
  let (m2, msgs2) ← rsync_and_diff change path monitored_folder live mirror
  let size ← stat_size live monitored_folder
  .ok (m2, msgs1 ++ msgs2 ++ [print_folder_size folder size])

/-- The source `cli` loop over one batch of events, in delivery order: an
error raised while processing an event escapes the loop and abandons the
rest of the batch. -/
def process_batch (live : FS) (folder : String) (monitored_folder : FsPath) :
    List (Change × FsPath) → FS → Except IOErr (FS × List Msg)
  | [], mirror => .ok (mirror, [])
  | (c, p) :: rest, mirror => do
    let (m2, msgs) ← process_event live folder monitored_folder mirror c p
    let (m3, msgsR) ← process_batch live folder monitored_folder rest m2
    .ok (m3, msgs ++ msgsR)

/-- Split a character list at every occurrence of a separator (Python
`str.split(sep)` shape: `n` separators yield `n + 1` pieces). -/
def splitOnChar (c : Char) : List Char → List (List Char)
  | [] => [[]]
  | x :: xs =>
    let r := splitOnChar c xs
    if x = c then [] :: r
    else
      match r with
      | [] => [[x]]
      | y :: ys => (x :: y) :: ys

/-- The individual text lines of a message list: each message's text split at
newlines, concatenated in order. -/
def renderedLines (msgs : List Msg) : List String :=
  (msgs.map (fun m => (splitOnChar (Char.ofNat 10) m.text.toList).map String.mk)).foldr
    (· ++ ·) []

/-- Substring containment test. -/
def containsSub (s pat : String) : Bool :=
  (findSub s.toList pat.toList).isSome

/-- A live tree for the nested-creation scenario: the watched root holding
`data/` which holds `data/a.txt` with content `"alpha"`. -/
def liveNested : FS :=
  [([], .dir 4096), (["data"], .dir 4096), (["data", "a.txt"], .file "alpha")]

/-- A mirror holding only its root directory (a fresh temporary directory). -/
def mirrorRootOnly : FS := [([], .dir 4096)]

/-- The mirror both event orders of the nested-creation scenario converge
to. -/
def mirrorNestedFinal : FS :=
  [([], .dir 4096), (["data"], .dir 4096), (["data", "a.txt"], .file "alpha")]

/-- A live tree in which the event's path has already vanished: only the
root and a surviving `data/` directory remain. -/
def liveVanished : FS := [([], .dir 4096), (["data"], .dir 4096)]

/-- A live tree holding one file `notes.txt`. -/
def liveNotes : FS := [([], .dir 4096), (["notes.txt"], .file "x")]

/-- A live tree from which the deleted entry is already gone: just the
root. -/
def liveRootOnly : FS := [([], .dir 4096)]

/-- A mirror holding a directory `data.old` (a name with a suffix) with one
file inside. -/
def mirrorSuffixDir : FS :=
  [([], .dir 4096), (["data.old"], .dir 4096), (["data.old", "keep.txt"], .file "k")]

/-- A mirror holding the extensionless file `config`. -/
def mirrorConfig : FS := [([], .dir 4096), (["config"], .file "x")]

/-- A live tree whose root directory inode reports 4096 bytes while its only
file holds 5 bytes of content. -/
def liveSized : FS := [([], .dir 4096), (["a.txt"], .file "hello")]

deriving instance DecidableEq for Except

/-- A key that lookup does not find is no entry's key. -/
theorem lookupFS_none_not_key (p : FsPath) (fs : FS) (h : lookupFS fs p = none) :
    ∀ a ∈ fs, a.1 ≠ p := by
  induction fs with
  | nil =>
    intro a ha
    simp at ha
  | cons q rest ih =>
    intro a ha
    obtain ⟨q1, e1⟩ := q
    by_cases hq : q1 = p
    · simp only [lookupFS, if_pos hq] at h
      exact Option.noConfusion h
    · simp only [lookupFS, if_neg hq] at h
      rcases List.mem_cons.mp ha with h1 | h2
      · subst h1
        simpa using hq
      · exact ih h a h2

/-- Erasing a key that is not present leaves the tree unchanged. -/
theorem eraseFS_of_lookup_none (fs : FS) (p : FsPath)
    (h : lookupFS fs p = none) : eraseFS fs p = fs := by
  unfold eraseFS
  rw [List.filter_eq_self]
  intro a ha
  simpa using lookupFS_none_not_key p fs h a ha

/-- Claim C8: for every pair of equal texts, rendering the diff produces an
empty sequence (`patch_make` emits no patch when the diff is a single keep
chunk, so `print_file_differences` prints nothing). -/
theorem render_equal_texts_empty (t : String) :
    print_file_differences t t = [] := by
  unfold print_file_differences patch_make diff_main
  by_cases h : t = ""
  · subst h; rfl
  · simp [h, patch_make_go, patch_make_step, List.isEmpty]

/-- Claim C3, counterexample: for the modification of `"hello"` into
`"hello world"`, the rendered sequence is a single block classified cyan (a
hunk header), whose text contains the context and addition lines; no
rendered element is classified as an addition (green) or removal (red), so
the rendered elements are not classified individually by their own leading
markers. -/
theorem diff_blocks_classified_as_header :
    print_file_differences "hello" "hello world" =
        [⟨"@@ -1,5 +1,11 @@\n hello\n+ world\n", Color.cyan⟩]
      ∧ (print_file_differences "hello" "hello world").map Msg.color =
        [Color.cyan]
      ∧ (print_file_differences "hello" "hello world").filter
        (fun m => startsWithChar m.text (Char.ofNat 43)) = [] := by decide

/-- Claim C3 (amended): the modification of `"hello"` into `"hello world"`
renders as one whole-patch block, classified by the block's leading
character (always the hunk position marker); the individual text lines of
that block contain exactly one addition line, `"+ world"`, which contains
`" world"`, and no removal line. -/
theorem diff_hello_world_addition_line :
    print_file_differences "hello" "hello world" =
        [⟨"@@ -1,5 +1,11 @@\n hello\n+ world\n", Color.cyan⟩]
      ∧ (renderedLines (print_file_differences "hello" "hello world")).filter
        (fun l => startsWithChar l (Char.ofNat 43)) = ["+ world"]
      ∧ (renderedLines (print_file_differences "hello" "hello world")).filter
        (fun l => startsWithChar l (Char.ofNat 45)) = []
      ∧ containsSub "+ world" " world" = true
      ∧ (patch_make "hello" "hello world").all
        (fun p => startsWithChar (patch_to_string p) (Char.ofNat 64)) = true := by
  decide

/-- Claim C5, counterexample: the path `data.old` has a suffix, so the
claim's heuristic calls it a file and predicts that exactly the single
mirror entry `data.old` is removed; the code instead branches on the mirror
entry's actual kind, finds a directory and removes the whole subtree, so the
child `data.old/keep.txt` is removed as well. -/
theorem deletion_heuristic_counterexample :
    py_suffix (nameOf ["data.old"]) = ".old"
      ∧ rsync_and_diff .deleted ["data.old"] [] liveRootOnly mirrorSuffixDir =
        .ok ([([], FsEntry.dir 4096)], [])
      ∧ lookupFS [([], FsEntry.dir 4096)] ["data.old", "keep.txt"] = none
      ∧ rsync_and_diff .deleted ["data.old"] [] liveRootOnly mirrorSuffixDir ≠
        .ok (eraseFS mirrorSuffixDir ["data.old"], []) := by decide

/-- Claim C5 (amended): for every Deleted event the mirror removal branches
on whether the mirror entry is currently a directory — not on the name
suffix: a directory entry is removed recursively (never failing), any other
entry is removed singly, tolerant of absence. -/
theorem deletion_branches_on_mirror_kind (live mirror : FS) (root p : FsPath) :
    rsync_and_diff .deleted p root live mirror =
      .ok ((if isDirFS mirror (get_temp_path p root) then
          rmtree_ignore_errors mirror (get_temp_path p root)
        else eraseFS mirror (get_temp_path p root)), []) := by
  cases h : lookupFS mirror (get_temp_path p root) with
  | none =>
    simp only [rsync_and_diff, isDirFS, unlink_missing_ok, h,
      eraseFS_of_lookup_none _ _ h]
    rfl
  | some e =>
    cases e with
    | file c =>
      simp only [rsync_and_diff, isDirFS, unlink_missing_ok, h]
      rfl
    | dir n =>
      simp only [rsync_and_diff, isDirFS, h]
      rfl

/-- Claim C6: when the extensionless file `config` is deleted, the
notification classifies it as a folder (the suffix heuristic's documented
misclassification), and its mirror entry is nevertheless removed from the
shadow tree. -/
theorem extensionless_delete_notified_as_folder :
    print_event_message liveRootOnly .deleted ["config"] =
        [⟨"Folder config deleted", Color.yellow⟩]
      ∧ rsync_and_diff .deleted ["config"] [] liveRootOnly mirrorConfig =
        .ok ([([], FsEntry.dir 4096)], [])
      ∧ lookupFS [([], FsEntry.dir 4096)] ["config"] = none := by decide

/-- Claim C1, counterexample: a Created event whose path has vanished makes
`copytree` fail with NotFound; nothing catches it, so the whole batch
aborts, and the following well-formed event — which alone would succeed —
is never processed. -/
theorem io_failure_aborts_batch :
    process_batch liveVanished "watched" []
        [(.added, ["gone"]), (.added, ["data"])] mirrorRootOnly =
      .error .notFound
      ∧ process_batch liveVanished "watched" [] [(.added, ["data"])]
        mirrorRootOnly =
      .ok ([([], FsEntry.dir 4096), (["data"], FsEntry.dir 4096)],
        [⟨"Folder data added", Color.green⟩,
         ⟨"\nTotal size of watched: 4 KB\n", Color.blue⟩]) := by decide

/-- Claim C1 (amended): no per-event I/O failure is caught — an error
raised while processing an event propagates out of the loop and abandons
the rest of the batch; the only vanished-path tolerance is the `is_file`
guard, which silently skips a Modified event whose live path is gone. -/
theorem io_failure_propagates :
    (∀ (live : FS) (folder : String) (root : FsPath) (mirror : FS)
        (c : Change) (p : FsPath) (rest : List (Change × FsPath)) (e : IOErr),
      process_event live folder root mirror c p = .error e →
      process_batch live folder root ((c, p) :: rest) mirror = .error e)
      ∧ (∀ (live mirror : FS) (root p : FsPath), lookupFS live p = none →
        rsync_and_diff .modified p root live mirror = .ok (mirror, [])) := by
  constructor
  · intro live folder root mirror c p rest e h
    simp only [process_batch, h]
    rfl
  · intro live mirror root p h
    simp only [rsync_and_diff, isFileFS, h]
    rfl

/-- Witness for `io_failure_propagates` at the concrete vanished-path
state. -/
theorem io_failure_propagates_witness :
    process_batch liveVanished "watched" [] [(.added, ["gone"])]
        mirrorRootOnly = .error .notFound
      ∧ rsync_and_diff .modified ["gone"] [] liveVanished mirrorRootOnly =
        .ok (mirrorRootOnly, []) :=
  ⟨io_failure_propagates.1 liveVanished "watched" [] mirrorRootOnly .added
      ["gone"] [] .notFound (by decide),
    io_failure_propagates.2 liveVanished mirrorRootOnly [] ["gone"] (by decide)⟩

/-- Claim C2, counterexample: a Modified event on the existing live file
`notes.txt` whose mirror entry is missing fails with NotFound — the missing
mirror entry is not tolerated, no empty previous text is substituted, and
nothing is written to the mirror. -/
theorem modified_missing_mirror_fails :
    isFileFS liveNotes ["notes.txt"] = true
      ∧ rsync_and_diff .modified ["notes.txt"] [] liveNotes mirrorRootOnly =
        .error .notFound
      ∧ rsync_and_diff .modified ["notes.txt"] [] liveNotes mirrorRootOnly ≠
        .ok (insertFS mirrorRootOnly ["notes.txt"] (.file "x"),
          print_file_differences "" "x") := by decide

/-- Claim C2 (amended): for a Modified event on an existing live file, a
missing mirror entry makes the mirror read fail with NotFound (the event is
not processed); when the mirror entry exists as a file, the live content is
written to the mirror and both texts are passed to the diff renderer. -/
theorem record_modified_requires_mirror_entry (live mirror : FS)
    (root p : FsPath) (cur : String)
    (hl : lookupFS live p = some (.file cur)) :
    (lookupFS mirror (get_temp_path p root) = none →
        rsync_and_diff .modified p root live mirror = .error .notFound)
      ∧ ∀ prev, lookupFS mirror (get_temp_path p root) = some (.file prev) →
        rsync_and_diff .modified p root live mirror =
          .ok (insertFS mirror (get_temp_path p root) (.file cur),
            print_file_differences prev cur) := by
  constructor
  · intro hm
    simp only [rsync_and_diff, isFileFS, read_text, hl, hm]
    rfl
  · intro prev hm
    simp only [rsync_and_diff, isFileFS, read_text, write_text, hl, hm]
    rfl

/-- Witness for `record_modified_requires_mirror_entry`: missing mirror
entry fails; present mirror entry diffs and overwrites. -/
theorem record_modified_requires_mirror_entry_witness :
    rsync_and_diff .modified ["notes.txt"] [] liveNotes mirrorRootOnly =
        .error .notFound
      ∧ rsync_and_diff .modified ["notes.txt"] [] liveNotes liveNotes =
        .ok (insertFS liveNotes ["notes.txt"] (.file "x"),
          print_file_differences "x" "x") :=
  ⟨(record_modified_requires_mirror_entry liveNotes mirrorRootOnly []
      ["notes.txt"] "x" (by decide)).1 (by decide),
    (record_modified_requires_mirror_entry liveNotes liveNotes []
      ["notes.txt"] "x" (by decide)).2 "x" (by decide)⟩

/-- Claim C4: the size the loop reports is the watched root directory's own
`stat().st_size` (4096 for this state), not the recursive sum of file sizes
(5 for this state) the spec defines; at this concrete state the two differ
and the printed message shows `4 KB`, not `5 B`. -/
theorem reported_size_is_root_stat_size :
    stat_size liveSized [] = .ok 4096
      ∧ tree_size liveSized = 5
      ∧ stat_size liveSized [] ≠ .ok (tree_size liveSized)
      ∧ process_event liveSized "watched" [] mirrorRootOnly .added ["a.txt"] =
        .ok ([([], FsEntry.dir 4096), (["a.txt"], FsEntry.file "hello")],
          [⟨"File a.txt added", Color.green⟩,
           ⟨"\nTotal size of watched: 4 KB\n", Color.blue⟩])
      ∧ get_human_readable_size (tree_size liveSized) = "5 B" := by decide

/-- Claim C7: `get_human_readable_size` maps `0` to `"0 B"`; for every
positive size the chosen exponent is the largest whose 1024-power does not
exceed the size (clamped to the table), and the output is the two-decimal
rendering of the scaled value — rounded through the same two stages as the
program's doubles — stripped of trailing zeros and dot, followed by the
chosen unit; in particular `1536 ↦ "1.5 KB"` and `1048576 ↦ "1 MB"`, and at
`2^53 + 2^37 + 1` the double rounding yields `"8192.12 TB"` just as the
program does. -/
theorem human_readable_size_spec :
    get_human_readable_size 0 = "0 B"
      ∧ (∀ s, 0 < s →
        1024 ^ size_exponent s ≤ s
          ∧ (size_exponent s < 4 → s < 1024 ^ (size_exponent s + 1))
          ∧ get_human_readable_size s =
            strip_trailing (format_two_decimals s (size_exponent s)) ++ " " ++
              size_units.getD (size_exponent s) "")
      ∧ get_human_readable_size 1536 = "1.5 KB"
      ∧ get_human_readable_size 1048576 = "1 MB"
      ∧ get_human_readable_size (2 ^ 53 + 2 ^ 37 + 1) = "8192.12 TB" := by
  refine ⟨by decide, ?_, by decide, by decide, by decide⟩
  intro s hs
  refine ⟨?_, ?_, ?_⟩
  · unfold size_exponent
    split_ifs <;> omega
  · unfold size_exponent
    split_ifs <;> intro hlt <;> omega
  · have h0 : ¬ s = 0 := by omega
    simp [get_human_readable_size, h0]

/-- Witness for `human_readable_size_spec` at the concrete size 1536. -/
theorem human_readable_size_spec_witness :
    1024 ^ size_exponent 1536 ≤ 1536
      ∧ (size_exponent 1536 < 4 → 1536 < 1024 ^ (size_exponent 1536 + 1))
      ∧ get_human_readable_size 1536 =
        strip_trailing (format_two_decimals 1536 (size_exponent 1536)) ++ " " ++
          size_units.getD (size_exponent 1536) "" :=
  human_readable_size_spec.2.1 1536 (by decide)

/-- Claim C9: creating `data/` containing `data/a.txt` reaches the same
final mirror — containing `data/a.txt` with the file's content — whichever
of the two Created events arrives first (the file branch creates the parent
mirror directory before writing, the directory branch copies recursively
with overwrite), and applying the directory's Created event twice produces
the same mirror as applying it once. -/
theorem nested_creation_order_independent :
    Except.map Prod.fst (process_batch liveNested "watched" []
        [(.added, ["data"]), (.added, ["data", "a.txt"])] mirrorRootOnly) =
      .ok mirrorNestedFinal
      ∧ Except.map Prod.fst (process_batch liveNested "watched" []
        [(.added, ["data", "a.txt"]), (.added, ["data"])] mirrorRootOnly) =
      .ok mirrorNestedFinal
      ∧ lookupFS mirrorNestedFinal ["data", "a.txt"] = some (.file "alpha")
      ∧ Except.map Prod.fst (process_batch liveNested "watched" []
        [(.added, ["data"]), (.added, ["data"])] mirrorRootOnly) =
      Except.map Prod.fst (process_batch liveNested "watched" []
        [(.added, ["data"])] mirrorRootOnly) := by decide

/-- Claim C10: a Created event whose path is not an existing regular file at
processing time (including a vanished path) is notified as a folder; the
file notification is emitted exactly when the live path is an existing
regular file. -/
theorem added_event_classification (live : FS) (p : FsPath) :
    (isFileFS live p = false →
      print_event_message live .added p =
        [⟨"Folder " ++ pathStr p ++ " added", Color.green⟩])
      ∧ (lookupFS live p = none → isFileFS live p = false)
      ∧ (isFileFS live p = true →
        print_event_message live .added p =
          [⟨"File " ++ pathStr p ++ " added", Color.green⟩]) := by
  refine ⟨?_, ?_, ?_⟩
  · intro h
    simp [print_event_message, h]
  · intro h
    simp [isFileFS, h]
  · intro h
    simp [print_event_message, h]

/-- Witness for `added_event_classification` at a vanished path. -/
theorem added_event_classification_witness :
    print_event_message liveVanished .added ["gone"] =
        [⟨"Folder " ++ pathStr ["gone"] ++ " added", Color.green⟩]
      ∧ isFileFS liveVanished ["gone"] = false :=
  ⟨(added_event_classification liveVanished ["gone"]).1 (by decide),
    (added_event_classification liveVanished ["gone"]).2.1 (by decide)⟩
